import Mathlib

/-!
Verification of the generic-repository mapper algebra and mapped-repository
adapter.  Python values are modelled by the inductive `PyVal`; Python
exceptions by `Err`; fallible calls return `Except Err α`.  The mapper class
hierarchy (`Mapper`, `LambdaMapper`, `ToFunctionArgsMapper`,
`ConstructorMapper`, `DecoratedMapper`) is embedded as the inductive
`MapperV` together with the recursive functions `map_item` and
`reverse_map`.  The `MappedRepository` adapter is embedded with an explicit
event trace so that call order and call counts are observable.
-/

/-- Python exceptions relevant to the library, with a payload on `custom`
so that distinct backend errors stay distinguishable. -/
inductive Err where
  | typeError
  | assertionError
  | notSupported
  | itemNotFound
  | invalidPayload
  | custom : Nat → Err
  deriving DecidableEq, Repr

/-- Python runtime values: ints, strings, None, dicts (insertion-ordered
key/value lists), lists, tuples, sets, the `_Arguments` named tuple
(positional part and keyword part), and generic constructed objects
(class name, positional args, keyword args). -/
inductive PyVal where
  | vint : Int → PyVal
  | vstr : String → PyVal
  | vnone : PyVal
  | vdict : List (String × PyVal) → PyVal
  | vlist : List PyVal → PyVal
  | vtuple : List PyVal → PyVal
  | vset : List PyVal → PyVal
  | vargs : List PyVal → List (String × PyVal) → PyVal
  | vobj : String → List PyVal → List (String × PyVal) → PyVal

/-- Dictionary lookup (first matching key, as in a duplicate-free dict). -/
def dlookup : List (String × PyVal) → String → Option PyVal
  | [], _ => none
  | (k, v) :: rest, key => if k = key then some v else dlookup rest key

/-- Whether a dict holds a key. -/
def hasKey : List (String × PyVal) → String → Bool
  | [], _ => false
  | (k, _) :: rest, key => k = key || hasKey rest key

/-- Replacement of one entry's value when its key matches. -/
def setEntry (k : String) (v : PyVal) (p : String × PyVal) :
    String × PyVal :=
  if p.1 = k then (k, v) else p

/-- Python `d[k] = v` on an insertion-ordered dict: an existing key keeps
its position and gets the new value, a fresh key is appended. -/
def dictSet (d : List (String × PyVal)) (k : String) (v : PyVal) :
    List (String × PyVal) :=
  if hasKey d k then d.map (setEntry k v)
  else d ++ [(k, v)]

/-- Python `d.update(items)`: set each pair of `items` in order. -/
def dictUpdate (d : List (String × PyVal)) :
    List (String × PyVal) → List (String × PyVal)
  | [] => d
  | (k, v) :: rest => dictUpdate (dictSet d k v) rest

/-- `ToFunctionArgsMapper.map_item` (mapper.py:190-201): start from the
default keyword arguments; a dict input is merged over them (its entries
win) with no positional part; a tuple, list or set input contributes its
elements as the positional part (an `_Arguments` value, being a named
tuple, is itself a tuple of its two fields); anything else raises
`TypeError("Type not supported.")`. -/
def toFunctionArgs_map_item (item : PyVal)
    (default_kwargs : List (String × PyVal)) : Except Err PyVal :=
  match item with
  | .vdict m => .ok (.vargs [] (dictUpdate default_kwargs m))
  | .vtuple xs => .ok (.vargs xs default_kwargs)
  | .vlist xs => .ok (.vargs xs default_kwargs)
  | .vset xs => .ok (.vargs xs default_kwargs)
  | .vargs a ks => .ok (.vargs [.vtuple a, .vdict ks] default_kwargs)
  | _ => .error .typeError

/-- Whether `isinstance(item, dict)` or `isinstance(item, (tuple, list, set))`
holds for the normalizer's dispatch (mapper.py:194-196). -/
def isSupportedArg : PyVal → Bool
  | .vdict _ => true
  | .vtuple _ => true
  | .vlist _ => true
  | .vset _ => true
  | .vargs _ _ => true
  | _ => false

/-- The mapper class hierarchy (mapper.py).  `lambdaM` is `LambdaMapper`
(a forward function and an optional reverse function); `toFunctionArgs` is
`ToFunctionArgsMapper`; `constructorM` is `ConstructorMapper` holding the
stored class (named, and building a `vobj` of that name when invoked);
`userM` is any other concrete subclass that overrides only `map_item`;
`decorated` is `DecoratedMapper` holding its two child mappers. -/
inductive MapperV where
  | lambdaM : (PyVal → PyVal) → Option (PyVal → PyVal) → MapperV
  | toFunctionArgs : MapperV
  | constructorM : String → MapperV
  | userM : (PyVal → List (String × PyVal) → PyVal) → MapperV
  | decorated : MapperV → MapperV → MapperV

/-- `map_item` of each concrete mapper class.  `LambdaMapper.map_item`
applies the stored function (mapper.py:148-149); the normalizer dispatches
on the input's runtime type (mapper.py:190-201); `ConstructorMapper.map_item`
unpacks the `_Arguments` pair into a constructor call (mapper.py:237-239,
a non-pair argument fails to unpack with a `TypeError`);
`DecoratedMapper.map_item` is `second.map_item(first.map_item(item, **kwargs),
**kwargs)` (mapper.py:283-284). -/
def map_item (m : MapperV) (item : PyVal) (kwargs : List (String × PyVal)) :
    Except Err PyVal :=
  match m with
  | .lambdaM f _ => .ok (f item)
  | .toFunctionArgs => toFunctionArgs_map_item item kwargs
  | .constructorM cls =>
    match item with
    | .vargs args kw => .ok (.vobj cls args kw)
    | _ => .error .typeError
  | .userM f => .ok (f item kwargs)
  | .decorated first second =>
    match map_item first item kwargs with
    | .error e => .error e
    | .ok mid => map_item second mid kwargs

/-- `reverse_map` of each concrete mapper class.  The base class raises
`NotImplementedError` (mapper.py:55-64); `LambdaMapper.reverse_map` applies
the reverse function when present and otherwise defers to the base
(mapper.py:151-154); `ToFunctionArgsMapper`, `ConstructorMapper` and other
subclasses that do not override it inherit the base behaviour;
`DecoratedMapper.reverse_map` is
`first.reverse_map(second.reverse_map(out, **kwargs), **kwargs)`
(mapper.py:286-287). -/
def reverse_map (m : MapperV) (out : PyVal)
    (kwargs : List (String × PyVal)) : Except Err PyVal :=
  match m with
  | .lambdaM _ (some r) => .ok (r out)
  | .lambdaM _ none => .error .notSupported
  | .toFunctionArgs => .error .notSupported
  | .constructorM _ => .error .notSupported
  | .userM _ => .error .notSupported
  | .decorated first second =>
    match reverse_map second out kwargs with
    | .error e => .error e
    | .ok mid => reverse_map first mid kwargs

/-- `DecoratedMapper.__init__` (mapper.py:272-281): each operand that is a
`Mapper` instance is `some`, any other Python object is `none`; the left
operand is validated first, then the right, each failure a `TypeError`. -/
def decoratedMapper_init : Option MapperV → Option MapperV →
    Except Err MapperV
  | none, _ => .error .typeError
  | some _, none => .error .typeError
  | some f, some s => .ok (.decorated f s)

/-- The argument of `Mapper.chain`: a `Mapper` instance (callable and an
instance), some other callable — a factory or class, whose call returns a
`Mapper` instance (`some`) or any other object (`none`) — or a
non-callable object. -/
inductive ChainArg where
  | inst : MapperV → ChainArg
  | factory : (List PyVal → List (String × PyVal) → Option MapperV) →
      ChainArg
  | notCallable : PyVal → ChainArg

/-- `Mapper.chain` (mapper.py:108-119): a callable that is a `Mapper`
instance is used as is; any other callable is invoked with the extra
arguments; a non-callable raises `TypeError`; the resolved object is then
passed to `DecoratedMapper(self, resolved)`, whose constructor validates
it. -/
def MapperV.chain (self : MapperV) (mapper : ChainArg)
    (mapper_args : List PyVal) (mapper_kwargs : List (String × PyVal)) :
    Except Err MapperV :=
  match mapper with
  | .inst m => decoratedMapper_init (some self) (some m)
  | .factory f =>
    decoratedMapper_init (some self) (f mapper_args mapper_kwargs)
  | .notCallable _ => .error .typeError

/-- The argument of `ConstructorMapper.__init__`: either a class (a `type`
instance, identified by name) or any other Python object. -/
inductive PyClassArg where
  | pytype : String → PyClassArg
  | nonType : PyVal → PyClassArg

/-- `ConstructorMapper.__init__` (mapper.py:231-235): a non-`type` argument
raises `AssertionError("The provided object is not a valid class.")`;
otherwise the class is stored. -/
def constructorMapper_init : PyClassArg → Except Err MapperV
  | .pytype n => .ok (.constructorM n)
  | .nonType _ => .error .assertionError

/-- `GenericBaseRepository.get_count` (base.py:28-35): a concrete — not
abstract — method whose body is only a docstring, so a call on a subclass
that does not override it returns `None`. -/
def genericBase_get_count (query_filters : List (String × PyVal)) :
    Except Err PyVal :=
  .ok .vnone

/-- One observable step of a `MappedRepository` operation (composition.py):
either a mapper application or a delegated call into the underlying
repository, each carrying the argument(s) it was invoked with. -/
inductive RepoEvent (V : Type) where
  | evIdMap : V → RepoEvent V
  | evCreateMap : V → RepoEvent V
  | evUpdateMap : V → RepoEvent V
  | evReplaceMap : V → RepoEvent V
  | evItemMap : V → RepoEvent V
  | evRepoAdd : V → RepoEvent V
  | evRepoUpdate : V → V → RepoEvent V
  | evRepoGetById : V → RepoEvent V
  | evRepoReplace : V → V → RepoEvent V
  | evRepoRemove : V → RepoEvent V
  | evRepoCount : List (String × V) → RepoEvent V
  | evRepoList : Option Nat → Option Nat → List (String × V) →
      RepoEvent V
  deriving DecidableEq

/-- An instrumented fallible computation: the trace of steps that actually
ran, and the outcome (a value, or the exception that aborted it). -/
def MX (V α : Type) : Type := List (RepoEvent V) × Except Err α

/-- Sequencing of instrumented computations: when the first step fails its
exception is the outcome and nothing after it runs (its trace is final);
otherwise the continuation runs and its trace is appended. -/
def bindMX {V α β : Type} (x : MX V α) (f : α → MX V β) : MX V β :=
  match x.2 with
  | .error e => (x.1, .error e)
  | .ok a => (x.1 ++ (f a).1, (f a).2)

/-- A single call: it is recorded in the trace and yields its result. -/
def mstep {V α : Type} (ev : RepoEvent V) (r : Except Err α) : MX V α :=
  ([ev], r)

/-- A `MappedRepository` (composition.py:44-70): the underlying repository's
operations and the five mappers, all fixed at construction.  Mappers and
repository calls may raise, hence `Except`. -/
structure MappedRepo (V : Type) where
  repoAdd : V → Except Err V
  repoUpdate : V → V → Except Err V
  repoGetById : V → Except Err V
  repoReplace : V → V → Except Err V
  repoRemove : V → Except Err Unit
  repoCount : List (String × V) → Except Err V
  repoList : Option Nat → Option Nat → List (String × V) →
      Except Err (List V)
  idMapper : V → Except Err V
  createMapper : V → Except Err V
  updateMapper : V → Except Err V
  replaceMapper : V → Except Err V
  itemMapper : V → Except Err V

/-- `MappedRepository.add` (composition.py:72-83):
`item_mapper(await repository.add(create_mapper(payload), **kwargs))`. -/
def MappedRepo.add {V : Type} (R : MappedRepo V) (payload : V) : MX V V :=
  bindMX (mstep (.evCreateMap payload) (R.createMapper payload)) fun x =>
  bindMX (mstep (.evRepoAdd x) (R.repoAdd x)) fun y =>
  mstep (.evItemMap y) (R.itemMapper y)

/-- `MappedRepository.update` (composition.py:85-99):
`item_mapper(await repository.update(id_mapper(item_id),
update_mapper(payload), **kwargs))`; Python evaluates the two argument
mappers left to right before the delegated call. -/
def MappedRepo.update {V : Type} (R : MappedRepo V) (item_id payload : V) :
    MX V V :=
  bindMX (mstep (.evIdMap item_id) (R.idMapper item_id)) fun i =>
  bindMX (mstep (.evUpdateMap payload) (R.updateMapper payload)) fun p =>
  bindMX (mstep (.evRepoUpdate i p) (R.repoUpdate i p)) fun y =>
  mstep (.evItemMap y) (R.itemMapper y)

/-- `MappedRepository.get_by_id` (composition.py:101-112):
`item_mapper(await repository.get_by_id(id_mapper(item_id), **kwargs))`. -/
def MappedRepo.get_by_id {V : Type} (R : MappedRepo V) (item_id : V) :
    MX V V :=
  bindMX (mstep (.evIdMap item_id) (R.idMapper item_id)) fun i =>
  bindMX (mstep (.evRepoGetById i) (R.repoGetById i)) fun y =>
  mstep (.evItemMap y) (R.itemMapper y)

/-- `MappedRepository.replace` (composition.py:114-128):
`item_mapper(await repository.replace(id_mapper(item_id),
replace_mapper(payload), **kwargs))`. -/
def MappedRepo.replace {V : Type} (R : MappedRepo V) (item_id payload : V) :
    MX V V :=
  bindMX (mstep (.evIdMap item_id) (R.idMapper item_id)) fun i =>
  bindMX (mstep (.evReplaceMap payload) (R.replaceMapper payload)) fun p =>
  bindMX (mstep (.evRepoReplace i p) (R.repoReplace i p)) fun y =>
  mstep (.evItemMap y) (R.itemMapper y)

/-- `MappedRepository.get_count` (composition.py:130-136):
`await repository.get_count(**query_filters)` — no mapping at all. -/
def MappedRepo.get_count {V : Type} (R : MappedRepo V)
    (query_filters : List (String × V)) : MX V V :=
  mstep (.evRepoCount query_filters) (R.repoCount query_filters)

/-- The list comprehension of `get_list` (composition.py:154-159): the item
mapper applied to each returned element in order; the first failure aborts
the comprehension. -/
def mapListItems {V : Type} (im : V → Except Err V) :
    List V → MX V (List V)
  | [] => ([], .ok [])
  | a :: as =>
    bindMX (mstep (.evItemMap a) (im a)) fun b =>
    bindMX (mapListItems im as) fun bs =>
    ([], .ok (b :: bs))

/-- `MappedRepository.get_list` (composition.py:138-159): delegate with
`offset`, `size` and the query filters unchanged, then map every returned
item through the item mapper in order. -/
def MappedRepo.get_list {V : Type} (R : MappedRepo V)
    (offset size : Option Nat) (query_filters : List (String × V)) :
    MX V (List V) :=
  bindMX
    (mstep (.evRepoList offset size query_filters)
      (R.repoList offset size query_filters))
    fun items => mapListItems R.itemMapper items

/-- `MappedRepository.remove` (composition.py:161-167):
`await repository.remove(id_mapper(item_id), **kwargs)` — no return
mapping. -/
def MappedRepo.remove {V : Type} (R : MappedRepo V) (item_id : V) :
    MX V Unit :=
  bindMX (mstep (.evIdMap item_id) (R.idMapper item_id)) fun i =>
  mstep (.evRepoRemove i) (R.repoRemove i)

/-- Error-free element-wise mapping, used to state what `get_list` returns
when every item maps successfully. -/
def mapExcept {V : Type} (f : V → Except Err V) :
    List V → Except Err (List V)
  | [] => .ok []
  | a :: as =>
    match f a with
    | .error e => .error e
    | .ok b =>
      match mapExcept f as with
      | .error e => .error e
      | .ok bs => .ok (b :: bs)

/-- A concrete mapped repository over `Nat` whose components fail on
chosen inputs, used to exhibit each failure scenario concretely. -/
def Wfail : MappedRepo Nat where
  repoAdd x := if x = 1 then .error (.custom 6) else .ok (x + 5)
  repoUpdate _ p := if p = 1 then .error (.custom 7) else .ok (p + 5)
  repoGetById i := if i = 1 then .error (.custom 8) else .ok (i + 5)
  repoReplace _ p := if p = 1 then .error (.custom 9) else .ok (p + 5)
  repoRemove i := if i = 1 then .error (.custom 10) else .ok ()
  repoCount _ := .error (.custom 11)
  repoList o _ _ := if o = some 0 then .error (.custom 12) else .ok [2, 7, 3]
  idMapper i := if i = 0 then .error (.custom 1) else .ok i
  createMapper p := if p = 0 then .error (.custom 2) else .ok p
  updateMapper p := if p = 0 then .error (.custom 3) else .ok p
  replaceMapper p := if p = 0 then .error (.custom 4) else .ok p
  itemMapper y := if y = 7 then .error (.custom 5) else .ok y

/-- A concrete mapped repository over `Nat` in which every component
succeeds, used to exhibit the success scenarios concretely. -/
def Wok : MappedRepo Nat where
  repoAdd x := .ok (x * 2)
  repoUpdate _ p := .ok (p * 2)
  repoGetById i := .ok (i * 2)
  repoReplace _ p := .ok (p * 2)
  repoRemove _ := .ok ()
  repoCount _ := .ok 0
  repoList _ _ _ := .ok [1, 2]
  idMapper i := .ok (i + 1)
  createMapper p := .ok (p + 1)
  updateMapper p := .ok (p + 1)
  replaceMapper p := .ok (p + 1)
  itemMapper y := .ok (y + 3)

/-- A mapped repository over a backend subclass that does not override
`get_count`: the delegated count call is the inherited
`GenericBaseRepository.get_count` body. -/
def RNone : MappedRepo PyVal where
  repoAdd x := .ok x
  repoUpdate _ p := .ok p
  repoGetById i := .ok i
  repoReplace _ p := .ok p
  repoRemove _ := .ok ()
  repoCount := genericBase_get_count
  repoList _ _ _ := .ok []
  idMapper i := .ok i
  createMapper p := .ok p
  updateMapper p := .ok p
  replaceMapper p := .ok p
  itemMapper y := .ok y


/-- `LambdaMapper(identity, identity)`: a reversible concrete mapper. -/
def idLambdaM : MapperV := .lambdaM (fun x => x) (some fun x => x)

/-- `LambdaMapper(identity)`: a concrete mapper with no reverse function. -/
def noRevLambdaM : MapperV := .lambdaM (fun x => x) none

theorem not_mem_hasKey_false (d : List (String × PyVal)) (k : String)
    (h : k ∉ d.map Prod.fst) : hasKey d k = false := by
  induction d with
  | nil => rfl
  | cons p rest ih =>
    obtain ⟨k1, v1⟩ := p
    rw [List.map_cons, List.mem_cons, not_or] at h
    have h1 : ¬k1 = k := fun he => h.1 he.symm
    simp [hasKey, h1, ih h.2]

theorem setEntry_hit (k : String) (v v1 : PyVal) :
    setEntry k v (k, v1) = (k, v) := by
  simp [setEntry]

theorem setEntry_miss (k : String) (v : PyVal) (k1 : String) (v1 : PyVal)
    (h : ¬k1 = k) : setEntry k v (k1, v1) = (k1, v1) := by
  simp [setEntry, h]

theorem dlookup_map_set_self (k : String) (v : PyVal) :
    ∀ d : List (String × PyVal), hasKey d k = true →
    dlookup (d.map (setEntry k v)) k = some v := by
  intro d
  induction d with
  | nil => intro h; simp [hasKey] at h
  | cons p rest ih =>
    intro h
    obtain ⟨k1, v1⟩ := p
    by_cases hk : k1 = k
    · subst hk
      rw [List.map_cons, setEntry_hit, dlookup, if_pos rfl]
    · simp [hasKey, hk] at h
      rw [List.map_cons, setEntry_miss k v k1 v1 hk, dlookup, if_neg hk]
      exact ih h

theorem dlookup_append_single_self (k : String) (v : PyVal) :
    ∀ d : List (String × PyVal), hasKey d k = false →
    dlookup (d ++ [(k, v)]) k = some v := by
  intro d
  induction d with
  | nil => intro _; simp [dlookup]
  | cons p rest ih =>
    intro h
    obtain ⟨k1, v1⟩ := p
    simp [hasKey] at h
    rw [List.cons_append, dlookup, if_neg h.1]
    exact ih h.2

theorem dlookup_dictSet_self (d : List (String × PyVal)) (k : String)
    (v : PyVal) : dlookup (dictSet d k v) k = some v := by
  unfold dictSet
  split
  · exact dlookup_map_set_self k v d (by assumption)
  · next hck =>
    exact dlookup_append_single_self k v d (by simpa using hck)

theorem dlookup_map_set_other (k : String) (v : PyVal) (key : String)
    (hne : k ≠ key) (d : List (String × PyVal)) :
    dlookup (d.map (setEntry k v)) key = dlookup d key := by
  induction d with
  | nil => rfl
  | cons p rest ih =>
    obtain ⟨k1, v1⟩ := p
    by_cases hk : k1 = k
    · subst hk
      rw [List.map_cons, setEntry_hit, dlookup, dlookup,
        if_neg hne, if_neg hne, ih]
    · rw [List.map_cons, setEntry_miss k v k1 v1 hk, dlookup, dlookup, ih]

theorem dlookup_append_single_other (k : String) (v : PyVal) (key : String)
    (hne : k ≠ key) (d : List (String × PyVal)) :
    dlookup (d ++ [(k, v)]) key = dlookup d key := by
  induction d with
  | nil => simp [dlookup, hne]
  | cons p rest ih =>
    obtain ⟨k1, v1⟩ := p
    rw [List.cons_append, dlookup, dlookup, ih]

theorem dlookup_dictSet_other (d : List (String × PyVal)) (k : String)
    (v : PyVal) (key : String) (hne : k ≠ key) :
    dlookup (dictSet d k v) key = dlookup d key := by
  unfold dictSet
  split
  · exact dlookup_map_set_other k v key hne d
  · exact dlookup_append_single_other k v key hne d

theorem dlookup_dictUpdate_not_hasKey :
    ∀ (m d : List (String × PyVal)) (k : String), hasKey m k = false →
    dlookup (dictUpdate d m) k = dlookup d k := by
  intro m
  induction m with
  | nil => intro d k _; rfl
  | cons p rest ih =>
    intro d k h
    obtain ⟨k1, v1⟩ := p
    simp [hasKey] at h
    rw [dictUpdate, ih _ _ h.2]
    exact dlookup_dictSet_other d k1 v1 k h.1

theorem dlookup_dictUpdate_of_mem :
    ∀ (m d : List (String × PyVal)) (k : String) (v : PyVal),
    (m.map Prod.fst).Nodup → dlookup m k = some v →
    dlookup (dictUpdate d m) k = some v := by
  intro m
  induction m with
  | nil => intro d k v _ h; simp [dlookup] at h
  | cons p rest ih =>
    intro d k v hnd h
    obtain ⟨k1, v1⟩ := p
    rw [List.map_cons, List.nodup_cons] at hnd
    rw [dictUpdate]
    by_cases hk : k1 = k
    · subst hk
      rw [dlookup, if_pos rfl] at h
      cases h
      rw [dlookup_dictUpdate_not_hasKey rest _ _
        (not_mem_hasKey_false rest k1 hnd.1)]
      exact dlookup_dictSet_self d k1 _
    · rw [dlookup, if_neg hk] at h
      exact ih _ _ _ hnd.2 h

theorem mapListItems_of_mapExcept_ok {V : Type} (im : V → Except Err V) :
    ∀ (l l' : List V), mapExcept im l = .ok l' →
    mapListItems im l = (l.map RepoEvent.evItemMap, .ok l') := by
  intro l
  induction l with
  | nil =>
    intro l' h
    rw [mapExcept] at h
    cases h
    rfl
  | cons a as ih =>
    intro l' h
    rw [mapExcept] at h
    cases ha : im a with
    | error e => rw [ha] at h; exact absurd h (by simp)
    | ok b =>
      rw [ha] at h
      cases hs : mapExcept im as with
      | error e => rw [hs] at h; exact absurd h (by simp)
      | ok bs =>
        rw [hs] at h
        cases h
        rw [mapListItems]
        simp [bindMX, mstep, ha, ih bs hs]

theorem mapListItems_first_failure {V : Type} (im : V → Except Err V) :
    ∀ (l1 m1 : List V) (a : V) (l2 : List V) (e : Err),
    mapExcept im l1 = .ok m1 → im a = .error e →
    mapListItems im (l1 ++ a :: l2) =
      (l1.map RepoEvent.evItemMap ++ [RepoEvent.evItemMap a], .error e) := by
  intro l1
  induction l1 with
  | nil =>
    intro m1 a l2 e _ ha
    simp [mapListItems, bindMX, mstep, ha]
  | cons b bs ih =>
    intro m1 a l2 e h1 ha
    rw [mapExcept] at h1
    cases hb : im b with
    | error e2 => rw [hb] at h1; exact absurd h1 (by simp)
    | ok c =>
      rw [hb] at h1
      cases hbs : mapExcept im bs with
      | error e2 => rw [hbs] at h1; exact absurd h1 (by simp)
      | ok ms =>
        rw [List.cons_append, mapListItems]
        simp [bindMX, mstep, hb, ih ms a l2 e hbs ha]

theorem mapExcept_length {V : Type} (f : V → Except Err V) :
    ∀ (l l' : List V), mapExcept f l = .ok l' → l'.length = l.length := by
  intro l
  induction l with
  | nil =>
    intro l' h
    rw [mapExcept] at h
    cases h
    rfl
  | cons a as ih =>
    intro l' h
    rw [mapExcept] at h
    cases ha : f a with
    | error e => rw [ha] at h; exact absurd h (by simp)
    | ok b =>
      rw [ha] at h
      cases hs : mapExcept f as with
      | error e => rw [hs] at h; exact absurd h (by simp)
      | ok bs =>
        rw [hs] at h
        cases h
        simp [ih bs hs]

theorem mapExcept_get {V : Type} (f : V → Except Err V) :
    ∀ (l l' : List V), mapExcept f l = .ok l' →
    ∀ (i : Nat) (hi : i < l.length) (hi' : i < l'.length),
    f (l.get ⟨i, hi⟩) = .ok (l'.get ⟨i, hi'⟩) := by
  intro l
  induction l with
  | nil => intro l' h i hi _; exact absurd hi (by simp)
  | cons a as ih =>
    intro l' h i hi hi'
    rw [mapExcept] at h
    cases ha : f a with
    | error e => rw [ha] at h; exact absurd h (by simp)
    | ok b =>
      rw [ha] at h
      cases hs : mapExcept f as with
      | error e => rw [hs] at h; exact absurd h (by simp)
      | ok bs =>
        rw [hs] at h
        cases h
        cases i with
        | zero => exact ha
        | succ j =>
          exact ih bs hs j (Nat.lt_of_succ_lt_succ hi) (Nat.lt_of_succ_lt_succ hi')

/-- C1: for any two mappers `f` and `g` composed by `chain` (equivalently
`DecoratedMapper(f, g)`) and any value `y` on which both reverses are
defined, the composite's reverse mapping is `f.reverse_map` applied to
`g.reverse_map(y)` — reverse order mirrors forward order; `f` and `g` range
over all mapper trees, so the law holds at any nesting depth. -/
theorem decorated_reverse_is_mirror (f g : MapperV) (y z w : PyVal)
    (kwargs : List (String × PyVal))
    (hg : reverse_map g y kwargs = .ok z)
    (hf : reverse_map f z kwargs = .ok w) :
    reverse_map (.decorated f g) y kwargs = .ok w
    ∧ reverse_map (.decorated f g) y kwargs =
        reverse_map f z kwargs
    ∧ ∀ (args : List PyVal) (kws : List (String × PyVal)),
        MapperV.chain f (.inst g) args kws = .ok (.decorated f g) := by
  refine ⟨?_, ?_, ?_⟩
  · simp [reverse_map, hg, hf]
  · simp [reverse_map, hg, hf]
  · intro args kws
    rfl

/-- Witness for C1: concrete reversible mappers at a concrete value. -/
theorem decorated_reverse_is_mirror_witness :
    reverse_map (.decorated idLambdaM idLambdaM) .vnone [] = .ok .vnone :=
  (decorated_reverse_is_mirror idLambdaM idLambdaM .vnone .vnone .vnone []
    rfl rfl).1

/-- C2: for any two mappers `f` and `g` and any value `x`, the forward
mapping of the composite built by `chain` (equivalently
`DecoratedMapper(f, g)`) is `g.map_item` applied to `f.map_item(x)`: the
first operand applies first, then the second. -/
theorem decorated_forward_composition (f g : MapperV) (x y : PyVal)
    (kwargs : List (String × PyVal))
    (hf : map_item f x kwargs = .ok y) :
    map_item (.decorated f g) x kwargs = map_item g y kwargs
    ∧ ∀ (args : List PyVal) (kws : List (String × PyVal)),
        MapperV.chain f (.inst g) args kws = .ok (.decorated f g) := by
  constructor
  · simp [map_item, hf]
  · intro args kws
    rfl

/-- Witness for C2: concrete mappers at a concrete value. -/
theorem decorated_forward_composition_witness :
    map_item (.decorated idLambdaM idLambdaM) .vnone [] =
      map_item idLambdaM .vnone [] :=
  (decorated_forward_composition idLambdaM idLambdaM .vnone .vnone []
    rfl).1

/-- C3: the argument normalizer maps a dict input to an empty positional
part and the defaults merged with the dict (the dict's entries winning),
maps a list, tuple or set input to its elements as the positional part
with the defaults as the keyword part, and raises a type error on every
other input. -/
theorem toFunctionArgs_normalization (m defaults : List (String × PyVal))
    (xs : List PyVal) :
    toFunctionArgs_map_item (.vdict m) defaults =
        .ok (.vargs [] (dictUpdate defaults m))
    ∧ ((m.map Prod.fst).Nodup → ∀ (k : String) (v : PyVal),
        dlookup m k = some v →
        dlookup (dictUpdate defaults m) k = some v)
    ∧ (∀ k : String, hasKey m k = false →
        dlookup (dictUpdate defaults m) k = dlookup defaults k)
    ∧ toFunctionArgs_map_item (.vlist xs) defaults = .ok (.vargs xs defaults)
    ∧ toFunctionArgs_map_item (.vtuple xs) defaults =
        .ok (.vargs xs defaults)
    ∧ toFunctionArgs_map_item (.vset xs) defaults = .ok (.vargs xs defaults)
    ∧ (∀ item : PyVal, isSupportedArg item = false →
        toFunctionArgs_map_item item defaults = .error .typeError) := by
  refine ⟨rfl, ?_, ?_, rfl, rfl, rfl, ?_⟩
  · intro hnd k v h
    exact dlookup_dictUpdate_of_mem m defaults k v hnd h
  · intro k h
    exact dlookup_dictUpdate_not_hasKey m defaults k h
  · intro item h
    cases item <;> simp_all [isSupportedArg, toFunctionArgs_map_item]

/-- Witness for C3: a dict input overriding one default, a list input, and
an unsupported string input, all at concrete values. -/
theorem toFunctionArgs_normalization_witness :
    toFunctionArgs_map_item (.vdict [("a", .vint 1)])
        [("a", .vint 0), ("b", .vint 2)] =
      .ok (.vargs []
        (dictUpdate [("a", .vint 0), ("b", .vint 2)] [("a", .vint 1)]))
    ∧ dlookup (dictUpdate [("a", .vint 0), ("b", .vint 2)] [("a", .vint 1)])
        "a" = some (.vint 1)
    ∧ dlookup (dictUpdate [("a", .vint 0), ("b", .vint 2)] [("a", .vint 1)])
        "b" = dlookup [("a", .vint 0), ("b", .vint 2)] "b"
    ∧ toFunctionArgs_map_item (.vlist [.vint 3])
        [("a", .vint 0), ("b", .vint 2)] =
      .ok (.vargs [.vint 3] [("a", .vint 0), ("b", .vint 2)])
    ∧ toFunctionArgs_map_item (.vstr "x") [("a", .vint 0), ("b", .vint 2)] =
      .error .typeError := by
  have T := toFunctionArgs_normalization [("a", .vint 1)]
    [("a", .vint 0), ("b", .vint 2)] [.vint 3]
  exact ⟨T.1, T.2.1 (by simp) "a" (.vint 1) (by simp [dlookup]),
    T.2.2.1 "b" (by decide), T.2.2.2.2.2.1, T.2.2.2.2.2.2 (.vstr "x") rfl⟩

/-- C7: composition is closed over the `Mapper` type — a non-callable
`chain` argument, a factory resolving to a non-`Mapper`, and a
`DecoratedMapper` construction with a non-`Mapper` operand on either side
all fail with a type error. -/
theorem chain_closed_over_mapper (self : MapperV) (args : List PyVal)
    (kws : List (String × PyVal)) :
    (∀ v : PyVal,
        MapperV.chain self (.notCallable v) args kws = .error .typeError)
    ∧ (∀ f, f args kws = none →
        MapperV.chain self (.factory f) args kws = .error .typeError)
    ∧ (∀ s : Option MapperV,
        decoratedMapper_init none s = .error .typeError)
    ∧ (∀ f : MapperV,
        decoratedMapper_init (some f) none = .error .typeError) := by
  refine ⟨fun v => rfl, ?_, fun s => rfl, fun f => rfl⟩
  intro f h
  simp [MapperV.chain, h, decoratedMapper_init]

/-- Witness for C7: a concrete factory resolving to a non-`Mapper`. -/
theorem chain_closed_over_mapper_witness :
    MapperV.chain idLambdaM (.factory fun _ _ => none) [] [] =
      .error .typeError :=
  (chain_closed_over_mapper idLambdaM [] []).2.1 (fun _ _ => none) rfl

/-- C8: every mapper whose class does not override `reverse_map` (the
function-pair mapper built without a reverse function, the normalizer,
the constructor mapper, and any other subclass) raises the not-implemented
error on `reverse_map`, and no forward `map_item` of any mapper ever
raises it. -/
theorem reverse_not_supported_never_forward :
    (∀ (f : PyVal → PyVal) (out : PyVal) (kws : List (String × PyVal)),
        reverse_map (.lambdaM f none) out kws = .error .notSupported)
    ∧ (∀ (out : PyVal) (kws : List (String × PyVal)),
        reverse_map .toFunctionArgs out kws = .error .notSupported)
    ∧ (∀ (c : String) (out : PyVal) (kws : List (String × PyVal)),
        reverse_map (.constructorM c) out kws = .error .notSupported)
    ∧ (∀ (u : PyVal → List (String × PyVal) → PyVal) (out : PyVal)
        (kws : List (String × PyVal)),
        reverse_map (.userM u) out kws = .error .notSupported)
    ∧ (∀ (m : MapperV) (item : PyVal) (kws : List (String × PyVal)),
        map_item m item kws ≠ .error .notSupported) := by
  refine ⟨fun f out kws => rfl, fun out kws => rfl, fun c out kws => rfl,
    fun u out kws => rfl, ?_⟩
  intro m
  induction m with
  | lambdaM f r =>
    intro item kws h
    simp [map_item] at h
  | toFunctionArgs =>
    intro item kws h
    cases item <;> simp [map_item, toFunctionArgs_map_item] at h
  | constructorM c =>
    intro item kws h
    cases item <;> simp [map_item] at h
  | userM f =>
    intro item kws h
    simp [map_item] at h
  | decorated a b iha ihb =>
    intro item kws h
    rw [map_item] at h
    cases ha : map_item a item kws with
    | error e =>
      rw [ha] at h
      simp at h
      subst h
      exact iha item kws ha
    | ok mid =>
      rw [ha] at h
      exact ihb mid kws h

/-- Witness for C8: a concrete reverse-less mapper at a concrete value. -/
theorem reverse_not_supported_never_forward_witness :
    reverse_map noRevLambdaM .vnone [] = .error .notSupported
    ∧ map_item noRevLambdaM .vnone [] ≠ .error .notSupported :=
  ⟨reverse_not_supported_never_forward.1 (fun x => x) .vnone [],
    reverse_not_supported_never_forward.2.2.2.2 noRevLambdaM .vnone []⟩

/-- C9 counterexample: at the concrete non-class argument `None`,
`ConstructorMapper.__init__` raises `AssertionError` — not a member of the
`TypeError` family the claim asserts. -/
theorem constructorMapper_init_not_typeMismatch :
    constructorMapper_init (.nonType .vnone) = .error .assertionError
    ∧ constructorMapper_init (.nonType .vnone) ≠ .error .typeError := by
  refine ⟨rfl, ?_⟩
  simp [constructorMapper_init]

/-- C9 amended: constructing a `ConstructorMapper` from a non-class
argument fails with an `AssertionError`, an error distinct from the
`TypeError` raised for non-`Mapper` composition operands and unsupported
normalization inputs. -/
theorem constructorMapper_init_assertion (v : PyVal) (n : String) :
    constructorMapper_init (.nonType v) = .error .assertionError
    ∧ constructorMapper_init (.pytype n) = .ok (.constructorM n)
    ∧ Err.assertionError ≠ Err.typeError :=
  ⟨rfl, rfl, by decide⟩

/-- C10: `GenericBaseRepository.get_count` is concrete with an empty body,
so a backend subclass that does not override it returns `None` for all
filters, and `MappedRepository.get_count` forwards that `None` — not an
integer — to its caller. -/
theorem get_count_returns_none (R : MappedRepo PyVal)
    (fs : List (String × PyVal))
    (h : R.repoCount = genericBase_get_count) :
    genericBase_get_count fs = .ok .vnone
    ∧ MappedRepo.get_count R fs = ([.evRepoCount fs], .ok .vnone)
    ∧ ∀ n : Int, PyVal.vnone ≠ PyVal.vint n := by
  refine ⟨rfl, ?_, fun n h2 => by cases h2⟩
  simp [MappedRepo.get_count, mstep, h, genericBase_get_count]

/-- Witness for C10: a concrete mapped repository over a backend that
inherits `get_count`. -/
theorem get_count_returns_none_witness :
    MappedRepo.get_count RNone [] = ([.evRepoCount []], .ok .vnone) :=
  (get_count_returns_none RNone [] rfl).2.1

/-- C5: when every step succeeds, `MappedRepository.add` applies the create
mapper to the payload exactly once, delegates exactly once to the
underlying `add` with the mapped payload, applies the item mapper exactly
once to the delegated result — in that order, as the trace shows — and
returns the item-mapped result. -/
theorem mapped_add_once_in_order {V : Type} (R : MappedRepo V)
    (p x y z : V) (h1 : R.createMapper p = .ok x)
    (h2 : R.repoAdd x = .ok y) (h3 : R.itemMapper y = .ok z) :
    R.add p = ([.evCreateMap p, .evRepoAdd x, .evItemMap y], .ok z) := by
  simp [MappedRepo.add, bindMX, mstep, h1, h2, h3]

/-- Witness for C5: a concrete successful `add`. -/
theorem mapped_add_once_in_order_witness :
    MappedRepo.add Wok 1 =
      ([.evCreateMap 1, .evRepoAdd 2, .evItemMap 4], .ok 7) :=
  mapped_add_once_in_order Wok 1 2 4 7 rfl rfl rfl

/-- C6: `MappedRepository.get_list` forwards `offset`, `size` and all
filters unchanged to the underlying `get_list` (the delegated call's
recorded arguments are exactly the caller's), and returns the underlying
items with the item mapper applied to every element, preserving order and
count. -/
theorem mapped_get_list_forwards_and_maps {V : Type} (R : MappedRepo V)
    (offset size : Option Nat) (fs : List (String × V)) (l l' : List V)
    (hrepo : R.repoList offset size fs = .ok l)
    (hmap : mapExcept R.itemMapper l = .ok l') :
    R.get_list offset size fs =
      (RepoEvent.evRepoList offset size fs :: l.map RepoEvent.evItemMap,
        .ok l')
    ∧ l'.length = l.length
    ∧ ∀ (i : Nat) (hi : i < l.length) (hi' : i < l'.length),
        R.itemMapper (l.get ⟨i, hi⟩) = .ok (l'.get ⟨i, hi'⟩) := by
  refine ⟨?_, mapExcept_length R.itemMapper l l' hmap,
    mapExcept_get R.itemMapper l l' hmap⟩
  simp [MappedRepo.get_list, bindMX, mstep, hrepo,
    mapListItems_of_mapExcept_ok R.itemMapper l l' hmap]

/-- Witness for C6: a concrete `get_list` with paging bounds and a filter,
whose trace records the unchanged arguments and whose result maps both
items in order. -/
theorem mapped_get_list_forwards_and_maps_witness :
    MappedRepo.get_list Wok (some 0) (some 5) [("k", 9)] =
      ([.evRepoList (some 0) (some 5) [("k", 9)], .evItemMap 1,
        .evItemMap 2], .ok [4, 5]) :=
  (mapped_get_list_forwards_and_maps Wok (some 0) (some 5) [("k", 9)]
    [1, 2] [4, 5] rfl rfl).1

/-- C4: for every `MappedRepository` operation, a failing step (input
mapper, delegated repository call, or item mapper) makes the operation
fail with that same exception, and the trace stops at the failing step: no
later step runs — in particular a failing input mapper means the
underlying repository is never invoked. -/
theorem mapped_error_propagation {V : Type} (R : MappedRepo V) :
    (∀ (p : V) (e : Err), R.createMapper p = .error e →
      R.add p = ([.evCreateMap p], .error e))
    ∧ (∀ (p x : V) (e : Err), R.createMapper p = .ok x →
        R.repoAdd x = .error e →
        R.add p = ([.evCreateMap p, .evRepoAdd x], .error e))
    ∧ (∀ (p x y : V) (e : Err), R.createMapper p = .ok x →
        R.repoAdd x = .ok y → R.itemMapper y = .error e →
        R.add p = ([.evCreateMap p, .evRepoAdd x, .evItemMap y], .error e))
    ∧ (∀ (i p : V) (e : Err), R.idMapper i = .error e →
        R.update i p = ([.evIdMap i], .error e))
    ∧ (∀ (i p ii : V) (e : Err), R.idMapper i = .ok ii →
        R.updateMapper p = .error e →
        R.update i p = ([.evIdMap i, .evUpdateMap p], .error e))
    ∧ (∀ (i p ii pp : V) (e : Err), R.idMapper i = .ok ii →
        R.updateMapper p = .ok pp → R.repoUpdate ii pp = .error e →
        R.update i p =
          ([.evIdMap i, .evUpdateMap p, .evRepoUpdate ii pp], .error e))
    ∧ (∀ (i p ii pp y : V) (e : Err), R.idMapper i = .ok ii →
        R.updateMapper p = .ok pp → R.repoUpdate ii pp = .ok y →
        R.itemMapper y = .error e →
        R.update i p =
          ([.evIdMap i, .evUpdateMap p, .evRepoUpdate ii pp,
            .evItemMap y], .error e))
    ∧ (∀ (i : V) (e : Err), R.idMapper i = .error e →
        R.get_by_id i = ([.evIdMap i], .error e))
    ∧ (∀ (i ii : V) (e : Err), R.idMapper i = .ok ii →
        R.repoGetById ii = .error e →
        R.get_by_id i = ([.evIdMap i, .evRepoGetById ii], .error e))
    ∧ (∀ (i ii y : V) (e : Err), R.idMapper i = .ok ii →
        R.repoGetById ii = .ok y → R.itemMapper y = .error e →
        R.get_by_id i =
          ([.evIdMap i, .evRepoGetById ii, .evItemMap y], .error e))
    ∧ (∀ (i p : V) (e : Err), R.idMapper i = .error e →
        R.replace i p = ([.evIdMap i], .error e))
    ∧ (∀ (i p ii : V) (e : Err), R.idMapper i = .ok ii →
        R.replaceMapper p = .error e →
        R.replace i p = ([.evIdMap i, .evReplaceMap p], .error e))
    ∧ (∀ (i p ii pp : V) (e : Err), R.idMapper i = .ok ii →
        R.replaceMapper p = .ok pp → R.repoReplace ii pp = .error e →
        R.replace i p =
          ([.evIdMap i, .evReplaceMap p, .evRepoReplace ii pp], .error e))
    ∧ (∀ (i p ii pp y : V) (e : Err), R.idMapper i = .ok ii →
        R.replaceMapper p = .ok pp → R.repoReplace ii pp = .ok y →
        R.itemMapper y = .error e →
        R.replace i p =
          ([.evIdMap i, .evReplaceMap p, .evRepoReplace ii pp,
            .evItemMap y], .error e))
    ∧ (∀ (fs : List (String × V)) (e : Err), R.repoCount fs = .error e →
        R.get_count fs = ([.evRepoCount fs], .error e))
    ∧ (∀ (i : V) (e : Err), R.idMapper i = .error e →
        R.remove i = ([.evIdMap i], .error e))
    ∧ (∀ (i ii : V) (e : Err), R.idMapper i = .ok ii →
        R.repoRemove ii = .error e →
        R.remove i = ([.evIdMap i, .evRepoRemove ii], .error e))
    ∧ (∀ (off sz : Option Nat) (fs : List (String × V)) (e : Err),
        R.repoList off sz fs = .error e →
        R.get_list off sz fs = ([.evRepoList off sz fs], .error e))
    ∧ (∀ (off sz : Option Nat) (fs : List (String × V))
        (l1 m1 : List V) (a : V) (l2 : List V) (e : Err),
        R.repoList off sz fs = .ok (l1 ++ a :: l2) →
        mapExcept R.itemMapper l1 = .ok m1 → R.itemMapper a = .error e →
        R.get_list off sz fs =
          (RepoEvent.evRepoList off sz fs ::
            (l1.map RepoEvent.evItemMap ++ [RepoEvent.evItemMap a]),
            .error e)) := by
  refine ⟨?_, ?_, ?_, ?_, ?_, ?_, ?_, ?_, ?_, ?_, ?_, ?_, ?_, ?_, ?_, ?_,
    ?_, ?_, ?_⟩
  · intro p e h1
    simp [MappedRepo.add, bindMX, mstep, h1]
  · intro p x e h1 h2
    simp [MappedRepo.add, bindMX, mstep, h1, h2]
  · intro p x y e h1 h2 h3
    simp [MappedRepo.add, bindMX, mstep, h1, h2, h3]
  · intro i p e h1
    simp [MappedRepo.update, bindMX, mstep, h1]
  · intro i p ii e h1 h2
    simp [MappedRepo.update, bindMX, mstep, h1, h2]
  · intro i p ii pp e h1 h2 h3
    simp [MappedRepo.update, bindMX, mstep, h1, h2, h3]
  · intro i p ii pp y e h1 h2 h3 h4
    simp [MappedRepo.update, bindMX, mstep, h1, h2, h3, h4]
  · intro i e h1
    simp [MappedRepo.get_by_id, bindMX, mstep, h1]
  · intro i ii e h1 h2
    simp [MappedRepo.get_by_id, bindMX, mstep, h1, h2]
  · intro i ii y e h1 h2 h3
    simp [MappedRepo.get_by_id, bindMX, mstep, h1, h2, h3]
  · intro i p e h1
    simp [MappedRepo.replace, bindMX, mstep, h1]
  · intro i p ii e h1 h2
    simp [MappedRepo.replace, bindMX, mstep, h1, h2]
  · intro i p ii pp e h1 h2 h3
    simp [MappedRepo.replace, bindMX, mstep, h1, h2, h3]
  · intro i p ii pp y e h1 h2 h3 h4
    simp [MappedRepo.replace, bindMX, mstep, h1, h2, h3, h4]
  · intro fs e h1
    simp [MappedRepo.get_count, mstep, h1]
  · intro i e h1
    simp [MappedRepo.remove, bindMX, mstep, h1]
  · intro i ii e h1 h2
    simp [MappedRepo.remove, bindMX, mstep, h1, h2]
  · intro off sz fs e h1
    simp [MappedRepo.get_list, bindMX, mstep, h1]
  · intro off sz fs l1 m1 a l2 e h1 h2 h3
    simp [MappedRepo.get_list, bindMX, mstep, h1,
      mapListItems_first_failure R.itemMapper l1 m1 a l2 e h2 h3]

/-- Witness for C4: every failure scenario of every operation, exhibited
on the concrete repository `Wfail`. -/
theorem mapped_error_propagation_witness :
    MappedRepo.add Wfail 0 = ([.evCreateMap 0], .error (.custom 2))
    ∧ MappedRepo.add Wfail 1 =
        ([.evCreateMap 1, .evRepoAdd 1], .error (.custom 6))
    ∧ MappedRepo.add Wfail 2 =
        ([.evCreateMap 2, .evRepoAdd 2, .evItemMap 7], .error (.custom 5))
    ∧ MappedRepo.update Wfail 0 5 = ([.evIdMap 0], .error (.custom 1))
    ∧ MappedRepo.update Wfail 2 0 =
        ([.evIdMap 2, .evUpdateMap 0], .error (.custom 3))
    ∧ MappedRepo.update Wfail 2 1 =
        ([.evIdMap 2, .evUpdateMap 1, .evRepoUpdate 2 1],
          .error (.custom 7))
    ∧ MappedRepo.update Wfail 2 2 =
        ([.evIdMap 2, .evUpdateMap 2, .evRepoUpdate 2 2, .evItemMap 7],
          .error (.custom 5))
    ∧ MappedRepo.get_by_id Wfail 0 = ([.evIdMap 0], .error (.custom 1))
    ∧ MappedRepo.get_by_id Wfail 1 =
        ([.evIdMap 1, .evRepoGetById 1], .error (.custom 8))
    ∧ MappedRepo.get_by_id Wfail 2 =
        ([.evIdMap 2, .evRepoGetById 2, .evItemMap 7], .error (.custom 5))
    ∧ MappedRepo.replace Wfail 0 5 = ([.evIdMap 0], .error (.custom 1))
    ∧ MappedRepo.replace Wfail 2 0 =
        ([.evIdMap 2, .evReplaceMap 0], .error (.custom 4))
    ∧ MappedRepo.replace Wfail 2 1 =
        ([.evIdMap 2, .evReplaceMap 1, .evRepoReplace 2 1],
          .error (.custom 9))
    ∧ MappedRepo.replace Wfail 2 2 =
        ([.evIdMap 2, .evReplaceMap 2, .evRepoReplace 2 2, .evItemMap 7],
          .error (.custom 5))
    ∧ MappedRepo.get_count Wfail [] =
        ([.evRepoCount []], .error (.custom 11))
    ∧ MappedRepo.remove Wfail 0 = ([.evIdMap 0], .error (.custom 1))
    ∧ MappedRepo.remove Wfail 1 =
        ([.evIdMap 1, .evRepoRemove 1], .error (.custom 10))
    ∧ MappedRepo.get_list Wfail (some 0) none [] =
        ([.evRepoList (some 0) none []], .error (.custom 12))
    ∧ MappedRepo.get_list Wfail none none [] =
        ([.evRepoList none none [], .evItemMap 2, .evItemMap 7],
          .error (.custom 5)) := by
  obtain ⟨a1, a2, a3, u1, u2, u3, u4, g1, g2, g3, r1, r2, r3, r4, c1, m1,
    m2, l1, l2⟩ := mapped_error_propagation Wfail
  exact ⟨a1 0 _ rfl, a2 1 1 _ rfl rfl, a3 2 2 7 _ rfl rfl rfl,
    u1 0 5 _ rfl, u2 2 0 2 _ rfl rfl, u3 2 1 2 1 _ rfl rfl rfl,
    u4 2 2 2 2 7 _ rfl rfl rfl rfl,
    g1 0 _ rfl, g2 1 1 _ rfl rfl, g3 2 2 7 _ rfl rfl rfl,
    r1 0 5 _ rfl, r2 2 0 2 _ rfl rfl, r3 2 1 2 1 _ rfl rfl rfl,
    r4 2 2 2 2 7 _ rfl rfl rfl rfl,
    c1 [] _ rfl, m1 0 _ rfl, m2 1 1 _ rfl rfl,
    l1 (some 0) none [] _ rfl,
    l2 none none [] [2] [2] 7 [3] _ rfl rfl rfl⟩
